import Mathlib

/-!
Verification of the declarative property/signal widget toolkit (fabric).

Each Python class relevant to the claims is shallowly embedded as a Lean
structure holding the attributes the class mutates, and each property
setter as a pure state-transformer translated line by line from the
source.  Python floats are modelled as rationals, Python ints as
integers, Gtk style-class sets as finite sets of strings, and logging
as an explicit list of emitted messages.  Setters that can raise are
modelled with `Except`.
-/

namespace Fabric

/-! ## WorkspaceButton (fabric/hyprland/widgets.py) -/

/-- State of a `WorkspaceButton`: the `_active`, `_urgent` and `_empty`
fields, the Gtk style-class set and the baked label text. -/
structure WorkspaceButton where
  active : Bool
  urgent : Bool
  empty : Bool
  styleClasses : Finset String
  label : String
deriving DecidableEq

/-- `WorkspaceButton.do_bake_label`: when a `FormattedString` label is
present it is re-rendered against the button state and stored via
`set_label`; with no label the call returns immediately.  The
`FormattedString` evaluation is abstracted as a function `render` of the
three boolean fields the formatter can observe. -/
def do_bake_label (render : Option (Bool → Bool → Bool → String))
    (b : WorkspaceButton) : WorkspaceButton :=
  match render with
  | none => b
  | some f => { b with label := f b.active b.urgent b.empty }

/-- The `urgent` property setter of `WorkspaceButton`: stores the flag,
adds (resp. removes) the `urgent` style class, and bakes the label. -/
def setUrgent (render : Option (Bool → Bool → Bool → String)) (v : Bool)
    (b : WorkspaceButton) : WorkspaceButton :=
  let b1 := { b with urgent := v }
  let b2 :=
    if v then { b1 with styleClasses := insert "urgent" b1.styleClasses }
    else { b1 with styleClasses := b1.styleClasses.erase "urgent" }
  do_bake_label render b2

/-- The `active` property setter of `WorkspaceButton`: stores the flag,
clears `urgent` through its own setter when set to `True`, adds (resp.
removes) the `active` style class, and bakes the label. -/
def setActive (render : Option (Bool → Bool → Bool → String)) (v : Bool)
    (b : WorkspaceButton) : WorkspaceButton :=
  let b1 := { b with active := v }
  let b2 := if v then setUrgent render false b1 else b1
  let b3 :=
    if v then { b2 with styleClasses := insert "active" b2.styleClasses }
    else { b2 with styleClasses := b2.styleClasses.erase "active" }
  do_bake_label render b3

/-- The `empty` property setter of `WorkspaceButton`. -/
def setEmpty (render : Option (Bool → Bool → Bool → String)) (v : Bool)
    (b : WorkspaceButton) : WorkspaceButton :=
  let b1 := { b with empty := v }
  let b2 :=
    if v then { b1 with styleClasses := insert "empty" b1.styleClasses }
    else { b1 with styleClasses := b1.styleClasses.erase "empty" }
  do_bake_label render b2

/-! ## CircularProgressBar (fabric/widgets/circularprogressbar.py) -/

/-- Modelled from the spec: the helper `clamp` lives in
`fabric/utils/helpers.py`, which is not in the source tree.  Per the
spec, out-of-range numeric values are clamped to the nearest bound. -/
def clamp (value lo hi : ℚ) : ℚ :=
  max (min value hi) lo

/-- Cairo line-cap members accepted by `line_style`. -/
inductive LineCap where
  | BUTT
  | ROUND
  | SQUARE
deriving DecidableEq

/-- State of a `CircularProgressBar`: the backing fields of its declared
properties (`queue_draw` requests are pure rendering and carry no
state). -/
structure CircularProgressBar where
  value : ℚ
  minValue : ℚ
  maxValue : ℚ
  lineWidth : ℤ
  lineStyle : LineCap
  pie : Bool
deriving DecidableEq

/-- The `value` property setter: stores the number unchanged and queues
a redraw. -/
def valueSet (v : ℚ) (s : CircularProgressBar) : CircularProgressBar :=
  { s with value := v }

/-- The `value` property getter. -/
def valueGet (s : CircularProgressBar) : ℚ :=
  s.value

/-- The `min_value` property setter: stores
`clamp(value, self.min_value, self.max_value)`. -/
def minValueSet (v : ℚ) (s : CircularProgressBar) : CircularProgressBar :=
  { s with minValue := clamp v s.minValue s.maxValue }

/-- The `min_value` property getter. -/
def minValueGet (s : CircularProgressBar) : ℚ :=
  s.minValue

/-- The `max_value` property setter: raises `ValueError` when the new
value is zero, otherwise stores it. -/
def maxValueSet (v : ℚ) (s : CircularProgressBar) :
    Except String CircularProgressBar :=
  if v = 0 then Except.error "max_value cannot be zero"
  else Except.ok { s with maxValue := v }

/-- A `CircularProgressBar` holding the constructor defaults. -/
def cpbDefault : CircularProgressBar :=
  { value := 1, minValue := 0, maxValue := 1, lineWidth := 4,
    lineStyle := LineCap.ROUND, pie := false }

/-! ## get_enum_member and the enum-typed setters -/

/-- Modelled from the spec: `get_enum_member` lives in
`fabric/utils/helpers.py`, which is not in the source tree.  Per the
spec ("invalid enum-like string values fall back to a documented default
rather than raising"), a string is looked up among the member names of
the target enum (given here as an association table) and the supplied
default is returned when the string names no member; a value that is
already a member is returned as is. -/
def get_enum_member {α : Type} (table : List (String × α))
    (value : String ⊕ α) (dflt : α) : α :=
  match value with
  | Sum.inr m => m
  | Sum.inl s => ((table.find? (fun p => p.1 = s)).map Prod.snd).getD dflt

/-- Member-name table of `cairo.LineCap`. -/
def lineCapTable : List (String × LineCap) :=
  [("butt", LineCap.BUTT), ("round", LineCap.ROUND),
   ("square", LineCap.SQUARE)]

/-- The `line_style` property setter of `CircularProgressBar`: resolves
the given string or member through `get_enum_member` with default
`cairo.LineCap.BUTT`. -/
def lineStyleSet (v : String ⊕ LineCap) (s : CircularProgressBar) :
    CircularProgressBar :=
  { s with lineStyle := get_enum_member lineCapTable v LineCap.BUTT }

/-- Layer-shell layer members (`GtkLayerShell.Layer`). -/
inductive Layer where
  | BACKGROUND
  | BOTTOM
  | TOP
  | OVERLAY
  | ENTRY_NUMBER
deriving DecidableEq

/-- Member-name table of `GtkLayerShell.Layer`. -/
def layerTable : List (String × Layer) :=
  [("background", Layer.BACKGROUND), ("bottom", Layer.BOTTOM),
   ("top", Layer.TOP), ("overlay", Layer.OVERLAY)]

/-- `WaylandWindowExclusivity` members. -/
inductive Exclusivity where
  | NONE
  | NORMAL
  | AUTO
deriving DecidableEq

/-- Member-name table of `WaylandWindowExclusivity`. -/
def exclusivityTable : List (String × Exclusivity) :=
  [("none", Exclusivity.NONE), ("normal", Exclusivity.NORMAL),
   ("auto", Exclusivity.AUTO)]

/-- The layer-shell exclusive-zone side effect chosen by the
`exclusivity` setter. -/
inductive ExclusiveZone where
  | zone (enabled : Bool)
  | auto
deriving DecidableEq

/-- State of a `WaylandWindow`: the backing fields of the properties the
claims mention (margins are `(top, right, bottom, left)`). -/
structure WaylandWindow where
  layer : Layer
  exclusivity : Exclusivity
  exclusiveZone : ExclusiveZone
  margins : ℤ × ℤ × ℤ × ℤ
deriving DecidableEq

/-- The `layer` property setter of `WaylandWindow`: resolves the value
through `get_enum_member` with default `GtkLayerShell.Layer.TOP` and
applies it. -/
def layerSet (v : String ⊕ Layer) (s : WaylandWindow) : WaylandWindow :=
  { s with layer := get_enum_member layerTable v Layer.TOP }

/-- The `exclusivity` property setter of `WaylandWindow`: resolves the
value through `get_enum_member` with default
`WaylandWindowExclusivity.NONE`, stores it and applies the matching
layer-shell exclusive-zone call. -/
def exclusivitySet (v : String ⊕ Exclusivity) (s : WaylandWindow) :
    WaylandWindow :=
  let e := get_enum_member exclusivityTable v Exclusivity.NONE
  { s with
    exclusivity := e,
    exclusiveZone :=
      match e with
      | Exclusivity.NORMAL => ExclusiveZone.zone true
      | Exclusivity.AUTO => ExclusiveZone.auto
      | Exclusivity.NONE => ExclusiveZone.zone false }

/-- `WaylandWindow.extract_margin`: a string is parsed with the
`extract_css_values` helper (not in the source tree, abstracted as the
argument `cssVals`); a tuple or list is used as is when its length is
exactly 4; everything else collapses to `(0, 0, 0, 0)`. -/
def extract_margin (cssVals : String → ℤ × ℤ × ℤ × ℤ)
    (input : String ⊕ List ℤ) : ℤ × ℤ × ℤ × ℤ :=
  match input with
  | Sum.inl s => cssVals s
  | Sum.inr l =>
      if l.length = 4 then (l.getD 0 0, l.getD 1 0, l.getD 2 0, l.getD 3 0)
      else (0, 0, 0, 0)

/-- The `margin` property setter of `WaylandWindow`: applies each edge
value produced by `extract_margin` through
`GtkLayerShell.set_margin`. -/
def marginSet (cssVals : String → ℤ × ℤ × ℤ × ℤ)
    (input : String ⊕ List ℤ) (s : WaylandWindow) : WaylandWindow :=
  { s with margins := extract_margin cssVals input }

/-! ## AudioStream.volume (fabric/audio/service.py) -/

/-- Python `int()` applied to a rational: truncation toward zero. -/
def pyInt (q : ℚ) : ℤ :=
  if 0 ≤ q then ⌊q⌋ else ⌈q⌉

/-- State visible to `AudioStream.volume`: the native stream volume (an
integer kept by the mixer backend), the cached previous volume, the
control object constant `get_vol_max_norm()` and the parent service
field `max_volume`. -/
structure AudioStream where
  streamVolume : ℤ
  oldVol : ℤ
  volMaxNorm : ℚ
  maxVolume : ℚ
deriving DecidableEq

/-- The `volume` property setter of `AudioStream`: floors negative
input at 0, caps input above the parent service `max_volume` at that
bound, remembers the old native volume and stores
`int(value * get_vol_max_norm() / 100)` into the native stream. -/
def volumeSet (v : ℚ) (s : AudioStream) : AudioStream :=
  let v1 := if v < 0 then 0 else v
  let v2 := if v1 > s.maxVolume then s.maxVolume else v1
  { s with
    oldVol := s.streamVolume,
    streamVolume := pyInt (v2 * s.volMaxNorm / 100) }

/-- The `volume` property getter of `AudioStream`:
`stream.get_volume() / control.get_vol_max_norm() * 100`. -/
def volumeGet (s : AudioStream) : ℚ :=
  (s.streamVolume : ℚ) / s.volMaxNorm * 100

/-! ## DateTime (fabric/widgets/datetime.py) -/

/-- The runtime type of a value assigned to `DateTime.formatters`: a
tuple or list of strings, a plain string, or anything else (the setter
branches on `isinstance`). -/
inductive FmtInput where
  | ofList (l : List String)
  | ofStr (s : String)
  | other
deriving DecidableEq

/-- State of a `DateTime` widget: the formatters tuple and the current
format index (a Python int). -/
structure DateTime where
  formatters : List String
  currentIndex : ℤ
deriving DecidableEq

/-- The default formatters list of `DateTime`. -/
def defaultFormatters : List String :=
  ["%I:%M %p", "%A", "%m-%d-%Y"]

/-- Warning logged when an invalid formatters list is assigned. -/
def formattersWarning : String :=
  "[DateTime] passed in invalid list of formatters, using default formatters list"

/-- The `formatters` property setter of `DateTime`: a tuple or list is
stored as a tuple, a string becomes a one-element tuple, any other value
leaves the backing field unchanged; afterwards an empty tuple is
replaced by the default list with a logged warning.  Returns the new
state and the emitted log messages. -/
def formattersSet (v : FmtInput) (s : DateTime) : DateTime × List String :=
  let fmts :=
    match v with
    | FmtInput.ofList l => l
    | FmtInput.ofStr str => [str]
    | FmtInput.other => s.formatters
  if fmts.length < 1 then
    ({ s with formatters := defaultFormatters }, [formattersWarning])
  else
    ({ s with formatters := fmts }, [])

/-- `DateTime.do_check_invalid_index`. -/
def do_check_invalid_index (s : DateTime) (index : ℤ) : Bool :=
  index < 0 || index > (s.formatters.length : ℤ) - 1

/-- `DateTime.do_cycle_next`: increments the index and resets it to 0
when it left the valid range. -/
def do_cycle_next (s : DateTime) : DateTime :=
  let i := s.currentIndex + 1
  { s with currentIndex := if do_check_invalid_index s i then 0 else i }

/-- `DateTime.do_cycle_prev`: decrements the index and resets it to
`len(formatters) - 1` when it left the valid range. -/
def do_cycle_prev (s : DateTime) : DateTime :=
  let i := s.currentIndex - 1
  { s with
    currentIndex :=
      if do_check_invalid_index s i then (s.formatters.length : ℤ) - 1
      else i }

/-- Python sequence indexing (negative indices count from the end,
anything outside `[-len, len)` raises `IndexError`, modelled as
`none`). -/
def pyIndex (l : List String) (i : ℤ) : Option String :=
  if 0 ≤ i ∧ i < (l.length : ℤ) then l.get? i.toNat
  else if -(l.length : ℤ) ≤ i ∧ i < 0 then l.get? (l.length - (-i).toNat)
  else none

/-- `DateTime.do_format`:
`time.strftime(self._formatters[self._current_index])`; the `strftime`
rendering is abstracted as `time`.  A `none` result models the
`IndexError` raised when the stored index is out of bounds. -/
def do_format (time : String → String) (s : DateTime) : Option String :=
  (pyIndex s.formatters s.currentIndex).map time

/-! ## Constructor traces

Widget constructors are modelled by the ordered trace of observable
initialization steps they perform: base-class initialization, property
setter invocations (`.setProp`), native method calls (`.callFn`) and
signal-handler wiring (`.wire`). -/

/-- One observable step of a constructor. -/
inductive InitStep where
  | baseInit (cls : String)
  | setProp (prop : String)
  | callFn (fn : String)
  | wire (signal : String)
deriving DecidableEq

/-- The property setters invoked by a trace, in order. -/
def settersOf (t : List InitStep) : List String :=
  t.filterMap fun s =>
    match s with
    | InitStep.setProp p => some p
    | _ => none

/-- The keyword arguments of `Widget.__init__` (and of every subclass
forwarding them).  Optional string-or-object arguments are collapsed to
`Option String`; `hExpand`/`vExpand` are plain booleans whose default is
`false`. -/
structure WidgetArgs where
  name : Option String
  visible : Bool
  allVisible : Bool
  style : Option String
  styleClasses : Option String
  tooltipText : Option String
  tooltipMarkup : Option String
  hAlign : Option String
  vAlign : Option String
  hExpand : Bool
  vExpand : Bool
  size : Option ℤ
deriving DecidableEq

/-- Python truthiness of an optional string (`if style:`): present and
non-empty. -/
def pyTruthy (o : Option String) : Bool :=
  match o with
  | none => false
  | some s => s ≠ ""

/-- The `WidgetArgs` produced by calling a constructor with no optional
arguments. -/
def defaultWidgetArgs : WidgetArgs :=
  { name := none, visible := true, allVisible := false, style := none,
    styleClasses := none, tooltipText := none, tooltipMarkup := none,
    hAlign := none, vAlign := none, hExpand := false, vExpand := false,
    size := none }

/-- Trace of `Widget.__init__`: native and capability base
initialization, then each argument application exactly as written in
the source (`set_name` guarded by `is not None`, alignments guarded by
truthiness, the expand flags applied unconditionally, `size` guarded by
`is not None`, style classes and style guarded by truthiness), ending
with the `show_all`/`show` call selected by `all_visible`/`visible`. -/
def widgetInitTrace (a : WidgetArgs) : List InitStep :=
  [InitStep.baseInit "Gtk.Widget", InitStep.baseInit "Service"]
  ++ (if a.name.isSome then [InitStep.callFn "set_name"] else [])
  ++ (if a.tooltipText.isSome then [InitStep.callFn "set_tooltip_text"] else [])
  ++ (if a.tooltipMarkup.isSome then [InitStep.callFn "set_tooltip_markup"] else [])
  ++ (if pyTruthy a.vAlign then [InitStep.setProp "v_align"] else [])
  ++ (if pyTruthy a.hAlign then [InitStep.setProp "h_align"] else [])
  ++ [InitStep.setProp "v_expand", InitStep.setProp "h_expand"]
  ++ (if a.size.isSome then [InitStep.callFn "set_size_request"] else [])
  ++ (if pyTruthy a.styleClasses then [InitStep.callFn "add_style_class"] else [])
  ++ (if pyTruthy a.style then [InitStep.callFn "set_style"] else [])
  ++ (if a.allVisible then [InitStep.callFn "show_all"]
      else if a.visible then [InitStep.callFn "show"] else [])

/-- Modelled from the spec: `Container.__init__`
(fabric/widgets/container.py) is not in the source tree; per the spec
contract it forwards the widget arguments to `Widget.__init__` and
applies its `child` parameter only when the value is present. -/
def containerInitTrace (a : WidgetArgs) (child : Bool) : List InitStep :=
  widgetInitTrace a ++ (if child then [InitStep.setProp "children"] else [])

/-- Trace of `EventBox.__init__`: native base init, `Container`
initialization, then `add_events` guarded by `events is not None`. -/
def eventBoxInitTrace (a : WidgetArgs) (child : Bool)
    (events : Option String) : List InitStep :=
  [InitStep.baseInit "Gtk.EventBox"]
  ++ containerInitTrace a child
  ++ (if events.isSome then [InitStep.callFn "add_events"] else [])

/-- Trace of `CircularProgressBar.__init__`: `Gtk.DrawingArea` then
`Widget` initialization, the six own property setters applied
unconditionally in declaration order, then the `draw` signal wiring. -/
def cpbInitTrace (a : WidgetArgs) : List InitStep :=
  [InitStep.baseInit "Gtk.DrawingArea"]
  ++ widgetInitTrace a
  ++ [InitStep.setProp "value", InitStep.setProp "min_value",
      InitStep.setProp "max_value", InitStep.setProp "line_width",
      InitStep.setProp "line_style", InitStep.setProp "pie"]
  ++ [InitStep.wire "draw"]

/-- Trace of `Window.__init__`: `Gtk.Window` native init, `Container`
initialization with `size` withheld, then `set_default_size` guarded by
`size is not None`. -/
def windowInitTrace (a : WidgetArgs) (child : Bool) : List InitStep :=
  [InitStep.baseInit "Gtk.Window"]
  ++ containerInitTrace { a with size := none } child
  ++ (if a.size.isSome then [InitStep.callFn "set_default_size"] else [])

/-- Trace of `WaylandWindow.__init__`: `Window` initialization with
`visible`/`all_visible` forced to `False`, the layer-shell setup calls,
the `notify::title` wiring, the `monitor` setter guarded by
`is not None`, the six unconditional own setters in source order, and
finally `show_all`/`show` — whose override runs
`do_handle_post_show_request`, which assigns `pass_through` a second
time. -/
def wwInitTrace (monitor : Bool) (a : WidgetArgs) (child : Bool) :
    List InitStep :=
  windowInitTrace { a with visible := false, allVisible := false } child
  ++ [InitStep.callFn "GtkLayerShell.init_for_window",
      InitStep.callFn "GtkLayerShell.set_namespace"]
  ++ [InitStep.wire "notify::title"]
  ++ (if monitor then [InitStep.setProp "monitor"] else [])
  ++ [InitStep.setProp "layer", InitStep.setProp "anchor",
      InitStep.setProp "margin", InitStep.setProp "keyboard_mode",
      InitStep.setProp "exclusivity", InitStep.setProp "pass_through"]
  ++ (if a.allVisible then
        [InitStep.callFn "show_all", InitStep.setProp "pass_through"]
      else if a.visible then
        [InitStep.callFn "show", InitStep.setProp "pass_through"]
      else [])

/-! ## Compositor event handlers (fabric/hyprland/widgets.py)

Each handler is modelled as a function from the event data payload and
the widget state to the new state paired with the list of log messages
it emits.  For the three `Workspaces` handlers the code after the
length guard (which talks to the compositor connection) is abstracted
as the argument `rest`. -/

/-- `Workspaces.on_workspace`: payloads with fewer than 1 field return
immediately, with no log and no state change. -/
def on_workspace {σ : Type} (rest : List String → σ → σ × List String)
    (data : List String) (s : σ) : σ × List String :=
  if data.length < 1 then (s, []) else rest data s

/-- `Workspaces.on_createworkspace`: payloads with fewer than 1 field
return immediately, with no log and no state change. -/
def on_createworkspace {σ : Type}
    (rest : List String → σ → σ × List String)
    (data : List String) (s : σ) : σ × List String :=
  if data.length < 1 then (s, []) else rest data s

/-- `Workspaces.on_destroyworkspace`: payloads with fewer than 1 field
return immediately, with no log and no state change. -/
def on_destroyworkspace {σ : Type}
    (rest : List String → σ → σ × List String)
    (data : List String) (s : σ) : σ × List String :=
  if data.length < 1 then (s, []) else rest data s

/-- State of a label-carrying compositor widget (`ActiveWindow`,
`Language`): the current Gtk label text. -/
structure LabelState where
  label : String
deriving DecidableEq

/-- `ActiveWindow.on_activewindow`: payloads with fewer than 2 fields
return immediately; otherwise the label is re-rendered from the window
class and title (the `FormattedString` is abstracted as `fmt`) and an
info message is logged. -/
def on_activewindow (fmt : String → String → String)
    (data : List String) (s : LabelState) : LabelState × List String :=
  match data with
  | d0 :: d1 :: _ =>
      ({ label := fmt d0 d1 },
       ["[ActiveWindow] Activated window " ++ d0 ++ ", " ++ d1])
  | _ => (s, [])

/-- Warning logged by `Language.on_activelayout` for a short payload. -/
def activelayoutWarning (rawData : String) : String :=
  "[Language] got invalid event data from hyprland, raw data is\n"
    ++ rawData

/-- `Language.on_activelayout`: payloads with fewer than 2 fields log a
warning and return with the state unchanged; a payload of exactly two
fields is unpacked into keyboard and language, the label is updated when
the keyboard regex matches (`matchKb` abstracts `re.match` with the
configured pattern, `fmt` the formatter) and a debug line is logged; a
longer payload makes the tuple unpacking raise, modelled as
`Except.error`. -/
def on_activelayout (matchKb : String → Bool) (fmt : String → String)
    (rawData : String) (data : List String) (s : LabelState) :
    Except String (LabelState × List String) :=
  if data.length < 2 then
    Except.ok (s, [activelayoutWarning rawData])
  else
    match data with
    | [keyboard, language] =>
        let matched := matchKb keyboard
        Except.ok
          (if matched then { label := fmt language } else s,
           ["[Language] Keyboard: " ++ keyboard ++ ", Language: "
              ++ language ++ ", Match: "
              ++ (if matched then "True" else "False")])
    | _ => Except.error "ValueError: too many values to unpack"

/-- Example `AudioStream` state: a silent stream on a backend with the
usual `get_vol_max_norm()` of 65536 and the default `max_volume` of
100. -/
def audioSample : AudioStream :=
  { streamVolume := 0, oldVol := 0, volMaxNorm := 65536, maxVolume := 100 }

/-- Example `WaylandWindow` state with nonzero margins. -/
def wwSample : WaylandWindow :=
  { layer := Layer.TOP, exclusivity := Exclusivity.NONE,
    exclusiveZone := ExclusiveZone.zone false, margins := (5, 6, 7, 8) }

/-! ## Helper lemmas -/

/-- After any assignment to `DateTime.formatters` the stored tuple is
non-empty: tuple/list and string inputs that end up empty are replaced
by the default list, and other inputs leave the previous (or, when
empty, the default) value. -/
theorem formattersSet_ne_nil (v : FmtInput) (s : DateTime) :
    (formattersSet v s).1.formatters ≠ [] := by
  cases v <;> simp only [formattersSet] <;> split <;>
    simp_all [defaultFormatters, List.length_pos, List.ne_nil_of_length_pos]

/-- `settersOf` distributes over trace concatenation. -/
theorem settersOf_append (l1 l2 : List InitStep) :
    settersOf (l1 ++ l2) = settersOf l1 ++ settersOf l2 :=
  List.filterMap_append l1 l2 _

/-- The only property setters `Widget.__init__` can invoke are the
alignment and expand setters. -/
theorem setProp_mem_widgetInitTrace (a : WidgetArgs) (p : String)
    (h : InitStep.setProp p ∈ widgetInitTrace a) :
    p ∈ ["v_align", "h_align", "v_expand", "h_expand"] := by
  simp only [widgetInitTrace, List.mem_append] at h
  rcases h with ((((((((((h | h) | h) | h) | h) | h) | h) | h) | h) | h) | h) <;>
    first
      | (split at h <;> simp_all)
      | simp_all

/-- `Widget.__init__` wires no signal handlers. -/
theorem wire_not_mem_widgetInitTrace (a : WidgetArgs) (sig : String) :
    InitStep.wire sig ∉ widgetInitTrace a := by
  intro h
  simp only [widgetInitTrace, List.mem_append] at h
  rcases h with ((((((((((h | h) | h) | h) | h) | h) | h) | h) | h) | h) | h) <;>
    first
      | (split at h <;> simp_all)
      | simp_all

/-- `Container.__init__` (and hence `Window.__init__`) never invokes the
`layer` property setter. -/
theorem layer_not_mem_windowInitTrace (a : WidgetArgs) (child : Bool) :
    InitStep.setProp "layer" ∉ windowInitTrace a child := by
  intro h
  simp only [windowInitTrace, containerInitTrace, List.mem_append,
    List.mem_singleton] at h
  rcases h with (h | (h | h)) | h
  · simp_all
  · have := setProp_mem_widgetInitTrace _ _ h
    simp_all
  · split at h <;> simp_all
  · split at h <;> simp_all

/-- The clamping chain of `AudioStream.volume`'s setter written with
`min`/`max`, assuming a nonnegative `max_volume`. -/
theorem volume_clamp_eq (v m : ℚ) (hm : 0 ≤ m) :
    (if (if v < 0 then 0 else v) > m then m else if v < 0 then 0 else v)
      = min (max v 0) m := by
  rcases lt_or_le v 0 with h | h
  · rw [if_pos h, if_neg (not_lt.mpr hm), max_eq_right h.le,
      min_eq_left hm]
  · rw [if_neg (not_lt.mpr h), max_eq_left h]
    rcases le_or_lt v m with h2 | h2
    · rw [if_neg (not_lt.mpr h2), min_eq_left h2]
    · rw [if_pos h2, min_eq_right h2.le]

/-- `get_enum_member` falls back to the supplied default when the string
names no member of the table. -/
theorem get_enum_member_not_found {α : Type} (table : List (String × α))
    (st : String) (d : α) (h : st ∉ table.map Prod.fst) :
    get_enum_member table (Sum.inl st) d = d := by
  simp only [get_enum_member]
  have hf : table.find? (fun p => p.1 = st) = none := by
    rw [List.find?_eq_none]
    intro p hp
    simp only [decide_eq_true_eq]
    intro e
    exact h (e ▸ List.mem_map_of_mem Prod.fst hp)
  rw [hf]
  rfl

/-- Membership in a conditional singleton trace chunk. -/
theorem mem_ite_cons_nil {α : Type} (c : Prop) [Decidable c] (x y : α) :
    (x ∈ if c then [y] else []) ↔ c ∧ x = y := by
  split_ifs with h <;> simp [h]

/-- After `do_cycle_next` the stored index lies in
`0 .. len(formatters) - 1` whenever the formatters tuple is
non-empty. -/
theorem do_cycle_next_index_range (s : DateTime)
    (h : 1 ≤ s.formatters.length) :
    0 ≤ (do_cycle_next s).currentIndex ∧
      (do_cycle_next s).currentIndex ≤ (s.formatters.length : ℤ) - 1 := by
  simp only [do_cycle_next]
  split_ifs with h1 <;> simp_all [do_check_invalid_index, not_or]

/-- After `do_cycle_prev` the stored index lies in
`0 .. len(formatters) - 1` whenever the formatters tuple is
non-empty. -/
theorem do_cycle_prev_index_range (s : DateTime)
    (h : 1 ≤ s.formatters.length) :
    0 ≤ (do_cycle_prev s).currentIndex ∧
      (do_cycle_prev s).currentIndex ≤ (s.formatters.length : ℤ) - 1 := by
  simp only [do_cycle_prev]
  split_ifs with h1 <;> simp_all [do_check_invalid_index, not_or]

/-- `do_format` succeeds whenever the stored index is within bounds. -/
theorem do_format_isSome_of_range (t : String → String) (s : DateTime)
    (h0 : 0 ≤ s.currentIndex)
    (h1 : s.currentIndex ≤ (s.formatters.length : ℤ) - 1) :
    (do_format t s).isSome = true := by
  have hlt : s.currentIndex.toNat < s.formatters.length := by omega
  simp only [do_format, pyIndex]
  rw [if_pos ⟨h0, by omega⟩, List.get?_eq_get hlt]
  rfl

/-! ## Claim theorems -/

/-- C1: the claim as frozen is false on the code: the `urgent` setter of
`WorkspaceButton` does not clear `active`.  Starting from a fresh button,
setting `active` to `True` and then `urgent` to `True` leaves both
properties `True` at once. -/
theorem c1_counterexample :
    (setUrgent none true (setActive none true
      { active := false, urgent := false, empty := true,
        styleClasses := ∅, label := "" })).active = true ∧
    (setUrgent none true (setActive none true
      { active := false, urgent := false, empty := true,
        styleClasses := ∅, label := "" })).urgent = true :=
  ⟨rfl, rfl⟩

/-- C1 (amended): both setters are idempotent — setting `active` or
`urgent` twice to the same value yields the same button state as setting
it once — and the clearing is one-directional: setting `active` to
`True` forces `urgent` to `False`, while setting `urgent` to `True`
leaves `active` untouched. -/
theorem c1_amended (render : Option (Bool → Bool → Bool → String))
    (v : Bool) (b : WorkspaceButton) :
    setActive render v (setActive render v b) = setActive render v b ∧
    setUrgent render v (setUrgent render v b) = setUrgent render v b ∧
    (setActive render true b).urgent = false ∧
    (setUrgent render v b).active = b.active := by
  have hau : ("active" : String) ≠ "urgent" := by decide
  cases v <;> cases render <;>
    simp [setActive, setUrgent, do_bake_label, Finset.erase_idem,
      Finset.insert_idem, Finset.erase_insert_of_ne hau,
      Finset.Insert.comm]

/-- C2: the claim as frozen is false on the code: assigning the invalid
value `0` to `CircularProgressBar.max_value` raises `ValueError` to the
caller instead of clamping or defaulting. -/
theorem c2_counterexample :
    maxValueSet 0 cpbDefault = Except.error "max_value cannot be zero" :=
  rfl

/-- C2 (amended): `DateTime.formatters` defaults invalid input with a
logged warning and never raises — an empty list is replaced by the
default three-format list and any assignment leaves a non-empty tuple —
but `CircularProgressBar.max_value` raises `ValueError` on the single
invalid value `0` and stores every other value verbatim. -/
theorem c2_amended (v : ℚ) (s : CircularProgressBar) (fv : FmtInput)
    (d : DateTime) (hv : v ≠ 0) :
    maxValueSet v s = Except.ok { s with maxValue := v } ∧
    formattersSet (FmtInput.ofList []) d
      = ({ d with formatters := defaultFormatters }, [formattersWarning]) ∧
    (formattersSet fv d).1.formatters ≠ [] := by
  refine ⟨?_, ?_, formattersSet_ne_nil fv d⟩
  · exact if_neg hv
  · rfl

/-- C2 (amended) witness at concrete inputs. -/
theorem c2_amended_witness :
    maxValueSet 2 cpbDefault
        = Except.ok { cpbDefault with maxValue := 2 } ∧
    formattersSet (FmtInput.ofList []) ⟨[], 0⟩
      = ({ DateTime.mk [] 0 with formatters := defaultFormatters },
         [formattersWarning]) ∧
    (formattersSet FmtInput.other ⟨[], 0⟩).1.formatters ≠ [] :=
  c2_amended 2 cpbDefault FmtInput.other ⟨[], 0⟩ (by norm_num)

/-- C3: the claim as frozen is false on the code: the
`CircularProgressBar.value` setter performs no clamping — writing `5`
to a bar whose bounds are `0..1` stores `5`, not the nearest bound
`1`. -/
theorem c3_counterexample :
    (valueSet 5 cpbDefault).value = 5 ∧ cpbDefault.minValue = 0 ∧
    cpbDefault.maxValue = 1 ∧ (valueSet 5 cpbDefault).value ≠ 1 := by
  refine ⟨rfl, rfl, rfl, ?_⟩
  norm_num [valueSet, cpbDefault]

/-- C3 (amended): `AudioStream.volume` does clamp — the native volume
stored for an out-of-range write is the one computed from the nearest
bound of `0..max_volume` — but `CircularProgressBar.value` stores the
written number unchanged, with no clamping to `min_value..max_value`. -/
theorem c3_amended (v : ℚ) (s : AudioStream) (c : CircularProgressBar)
    (hm : 0 ≤ s.maxVolume) :
    (volumeSet v s).streamVolume
      = pyInt (min (max v 0) s.maxVolume * s.volMaxNorm / 100) ∧
    (valueSet v c).value = v := by
  refine ⟨?_, rfl⟩
  simp only [volumeSet]
  rw [volume_clamp_eq v s.maxVolume hm]

/-- C3 (amended) witness at concrete inputs. -/
theorem c3_amended_witness :
    (volumeSet 150 audioSample).streamVolume
      = pyInt (min (max 150 0) audioSample.maxVolume
          * audioSample.volMaxNorm / 100) ∧
    (valueSet 150 cpbDefault).value = 150 :=
  c3_amended 150 audioSample cpbDefault (by norm_num [audioSample])

/-- C10: assigning a non-string list whose length is not 4 to
`WaylandWindow.margin` zeroes all four edge margins, discarding both the
supplied values and the previous margins. -/
theorem c10_margin_reset (cssVals : String → ℤ × ℤ × ℤ × ℤ)
    (l : List ℤ) (w : WaylandWindow) (h : l.length ≠ 4) :
    marginSet cssVals (Sum.inr l) w = { w with margins := (0, 0, 0, 0) } := by
  simp [marginSet, extract_margin, if_neg h]

/-- C10 witness: a three-element margin list wipes previously set
margins. -/
theorem c10_margin_reset_witness :
    marginSet (fun _ => (0, 0, 0, 0)) (Sum.inr [7, 8, 9]) wwSample
      = { wwSample with margins := (0, 0, 0, 0) } :=
  c10_margin_reset (fun _ => (0, 0, 0, 0)) [7, 8, 9] wwSample (by decide)

/-- C6: the claim as frozen is false on the code: a malformed (empty)
payload delivered to `Workspaces.on_workspace` is ignored but NOT
logged — the handler returns with an empty log. -/
theorem c6_counterexample :
    on_workspace (σ := Unit) (fun _ s => (s, [])) [] () = ((), []) :=
  rfl

/-- C6 (amended): every compositor event handler with a payload shorter
than its documented minimum is a no-op on widget state; only
`Language.on_activelayout` logs the malformed payload (a warning), the
other four return silently. -/
theorem c6_amended {σ : Type}
    (rest₁ rest₂ rest₃ : List String → σ → σ × List String)
    (fmt : String → String → String) (mk : String → Bool)
    (f2 : String → String) (raw : String) (d1 d2 : List String)
    (s : σ) (t : LabelState)
    (h1 : d1.length < 1) (h2 : d2.length < 2) :
    on_workspace rest₁ d1 s = (s, []) ∧
    on_createworkspace rest₂ d1 s = (s, []) ∧
    on_destroyworkspace rest₃ d1 s = (s, []) ∧
    on_activewindow fmt d2 t = (t, []) ∧
    on_activelayout mk f2 raw d2 t
      = Except.ok (t, [activelayoutWarning raw]) := by
  have hd1 : d1 = [] := List.length_eq_zero.mp (by omega)
  refine ⟨?_, ?_, ?_, ?_, ?_⟩
  · simp [on_workspace, hd1]
  · simp [on_createworkspace, hd1]
  · simp [on_destroyworkspace, hd1]
  · match d2, h2 with
    | [], _ => rfl
    | [x], _ => rfl
  · simp [on_activelayout, if_pos h2]

/-- C6 (amended) witness at concrete inputs. -/
theorem c6_amended_witness :
    on_workspace (σ := Unit) (fun _ s => (s, [])) [] () = ((), []) ∧
    on_createworkspace (σ := Unit) (fun _ s => (s, [])) [] () = ((), []) ∧
    on_destroyworkspace (σ := Unit) (fun _ s => (s, [])) [] () = ((), []) ∧
    on_activewindow (fun _ _ => "") ["x"] ⟨"lbl"⟩ = (⟨"lbl"⟩, []) ∧
    on_activelayout (fun _ => true) (fun l => l) "raw" ["x"] ⟨"lbl"⟩
      = Except.ok (⟨"lbl"⟩, [activelayoutWarning "raw"]) :=
  c6_amended (fun _ s => (s, [])) (fun _ s => (s, [])) (fun _ s => (s, []))
    (fun _ _ => "") (fun _ => true) (fun l => l) "raw" [] ["x"] () ⟨"lbl"⟩
    (by decide) (by decide)

/-- C7: set-then-get round-trips for the cited read-write properties:
`CircularProgressBar.value` round-trips exactly,
`CircularProgressBar.min_value` round-trips to the documented clamp of
the written value, and `AudioStream.volume` round-trips to its
`0..max_volume` clamp up to the unit conversion through the native
integer volume (an error below `100 / get_vol_max_norm()`). -/
theorem c7_roundtrip (v : ℚ) (c : CircularProgressBar) (s : AudioStream)
    (hn : 0 < s.volMaxNorm) (hm : 0 ≤ s.maxVolume) :
    valueGet (valueSet v c) = v ∧
    minValueGet (minValueSet v c) = clamp v c.minValue c.maxValue ∧
    |volumeGet (volumeSet v s) - min (max v 0) s.maxVolume|
      ≤ 100 / s.volMaxNorm := by
  refine ⟨rfl, rfl, ?_⟩
  have hne : s.volMaxNorm ≠ 0 := ne_of_gt hn
  set n := s.volMaxNorm with hn'
  set m := s.maxVolume with hm'
  set cv := min (max v 0) m with hcv
  have hcv0 : 0 ≤ cv := le_min (le_max_right v 0) hm
  set x := cv * n / 100 with hx
  have hx0 : 0 ≤ x := by
    rw [hx]
    exact div_nonneg (mul_nonneg hcv0 hn.le) (by norm_num)
  have hstore : (volumeSet v s).streamVolume = ⌊x⌋ := by
    simp only [volumeSet]
    rw [volume_clamp_eq v m hm, pyInt, if_pos hx0]
  have hget : volumeGet (volumeSet v s) = (⌊x⌋ : ℚ) / n * 100 := by
    simp only [volumeGet, hstore]
    rfl
  have hcvx : cv = x * 100 / n := by
    rw [hx]
    field_simp
  have hfl : (⌊x⌋ : ℚ) ≤ x := Int.floor_le x
  have hfu : x - 1 < (⌊x⌋ : ℚ) := Int.sub_one_lt_floor x
  have key : (⌊x⌋ : ℚ) / n * 100 - cv = ((⌊x⌋ : ℚ) - x) * 100 / n := by
    rw [hcvx]
    ring
  rw [hget, key, abs_div, abs_of_pos hn, div_le_div_iff_of_pos_right hn]
  have habs : |(⌊x⌋ : ℚ) - x| ≤ 1 := by
    rw [abs_sub_comm, abs_of_nonneg (by linarith)]
    linarith
  calc |((⌊x⌋ : ℚ) - x) * 100| = |(⌊x⌋ : ℚ) - x| * 100 := by
        rw [abs_mul]
        norm_num
    _ ≤ 1 * 100 := by nlinarith [abs_nonneg ((⌊x⌋ : ℚ) - x)]
    _ = 100 := by norm_num

/-- C7 witness at concrete inputs. -/
theorem c7_roundtrip_witness :
    valueGet (valueSet 5 cpbDefault) = 5 ∧
    minValueGet (minValueSet 5 cpbDefault)
      = clamp 5 cpbDefault.minValue cpbDefault.maxValue ∧
    |volumeGet (volumeSet 5 audioSample) - min (max 5 0) audioSample.maxVolume|
      ≤ 100 / audioSample.volMaxNorm :=
  c7_roundtrip 5 cpbDefault audioSample (by norm_num [audioSample])
    (by norm_num [audioSample])

/-- C8: an invalid enum-name string stores the documented default
member: `cairo.LineCap.BUTT` for `line_style`، `GtkLayerShell.Layer.TOP`
for `layer` and `WaylandWindowExclusivity.NONE` for `exclusivity`. -/
theorem c8_invalid_string_defaults (st : String) (c : CircularProgressBar)
    (w : WaylandWindow)
    (h1 : st ∉ lineCapTable.map Prod.fst)
    (h2 : st ∉ layerTable.map Prod.fst)
    (h3 : st ∉ exclusivityTable.map Prod.fst) :
    (lineStyleSet (Sum.inl st) c).lineStyle = LineCap.BUTT ∧
    (layerSet (Sum.inl st) w).layer = Layer.TOP ∧
    (exclusivitySet (Sum.inl st) w).exclusivity = Exclusivity.NONE := by
  refine ⟨?_, ?_, ?_⟩
  · simp only [lineStyleSet]
    rw [get_enum_member_not_found _ _ _ h1]
  · simp only [layerSet]
    rw [get_enum_member_not_found _ _ _ h2]
  · simp only [exclusivitySet]
    rw [get_enum_member_not_found _ _ _ h3]

/-- C8 witness: the string `"bogus"` names no member of any of the three
enums and each setter stores its default. -/
theorem c8_invalid_string_defaults_witness :
    (lineStyleSet (Sum.inl "bogus") cpbDefault).lineStyle = LineCap.BUTT ∧
    (layerSet (Sum.inl "bogus") wwSample).layer = Layer.TOP ∧
    (exclusivitySet (Sum.inl "bogus") wwSample).exclusivity
      = Exclusivity.NONE :=
  c8_invalid_string_defaults "bogus" cpbDefault wwSample (by decide)
    (by decide) (by decide)

/-- C9: the claim as frozen is false on the code: `do_format` CAN index
the formatters tuple out of bounds.  After cycling to index 2 of a
three-element formatters tuple, assigning a single-format string leaves
the stored index at 2, and the next `do_format` call raises
`IndexError` (modelled as `none`). -/
theorem c9_counterexample :
    do_format (fun f => f)
      ((formattersSet (FmtInput.ofStr "%H")
        (do_cycle_next (do_cycle_next
          (formattersSet (FmtInput.ofList ["%a", "%b", "%c"])
            ⟨[], 0⟩).1))).1) = none := by
  decide

/-- C9 (amended): every assignment to `formatters` leaves a non-empty
tuple, every `do_cycle_next`/`do_cycle_prev` call leaves the index
within `0 .. len(formatters) - 1`, and `do_format` invoked right after a
cycle call never indexes out of bounds; the out-of-bounds access is
reachable only by shrinking `formatters` after the index advanced. -/
theorem c9_amended (v : FmtInput) (t : String → String) (s s2 : DateTime)
    (h : 1 ≤ s2.formatters.length) :
    (formattersSet v s).1.formatters ≠ [] ∧
    (0 ≤ (do_cycle_next s2).currentIndex ∧
      (do_cycle_next s2).currentIndex ≤ (s2.formatters.length : ℤ) - 1) ∧
    (0 ≤ (do_cycle_prev s2).currentIndex ∧
      (do_cycle_prev s2).currentIndex ≤ (s2.formatters.length : ℤ) - 1) ∧
    (do_format t (do_cycle_next s2)).isSome = true ∧
    (do_format t (do_cycle_prev s2)).isSome = true := by
  have hn := do_cycle_next_index_range s2 h
  have hp := do_cycle_prev_index_range s2 h
  exact ⟨formattersSet_ne_nil v s, hn, hp,
    do_format_isSome_of_range t _ hn.1 hn.2,
    do_format_isSome_of_range t _ hp.1 hp.2⟩

/-- C9 (amended) witness at concrete inputs. -/
theorem c9_amended_witness :
    (formattersSet (FmtInput.ofStr "%H") ⟨[], 0⟩).1.formatters ≠ [] ∧
    (0 ≤ (do_cycle_next ⟨defaultFormatters, 0⟩).currentIndex ∧
      (do_cycle_next ⟨defaultFormatters, 0⟩).currentIndex
        ≤ ((DateTime.mk defaultFormatters 0).formatters.length : ℤ) - 1) ∧
    (0 ≤ (do_cycle_prev ⟨defaultFormatters, 0⟩).currentIndex ∧
      (do_cycle_prev ⟨defaultFormatters, 0⟩).currentIndex
        ≤ ((DateTime.mk defaultFormatters 0).formatters.length : ℤ) - 1) ∧
    (do_format (fun f => f) (do_cycle_next ⟨defaultFormatters, 0⟩)).isSome
      = true ∧
    (do_format (fun f => f) (do_cycle_prev ⟨defaultFormatters, 0⟩)).isSome
      = true :=
  c9_amended (FmtInput.ofStr "%H") (fun f => f) ⟨[], 0⟩
    ⟨defaultFormatters, 0⟩ (by decide)

/-- C4: the claim as frozen is false on the code: in
`WaylandWindow.__init__` (with default arguments) the `pass_through`
setter is invoked twice — once in the setter block and once more by the
`show()` override through `do_handle_post_show_request` — the
`notify::title` handler is wired before any of the window's own property
setters run, and `keyboard_mode` is applied before `exclusivity` even
though `exclusivity` is declared first. -/
theorem c4_counterexample :
    (wwInitTrace false defaultWidgetArgs false).count
        (InitStep.setProp "pass_through") = 2 ∧
    settersOf (wwInitTrace false defaultWidgetArgs false)
      = ["v_expand", "h_expand", "layer", "anchor", "margin",
         "keyboard_mode", "exclusivity", "pass_through", "pass_through"] ∧
    (wwInitTrace false defaultWidgetArgs false).indexOf
        (InitStep.wire "notify::title")
      < (wwInitTrace false defaultWidgetArgs false).indexOf
        (InitStep.setProp "layer") := by
  decide

/-- C4 (amended): `CircularProgressBar.__init__` does follow the
contract for its own six parameters — each setter runs exactly once, in
declaration order, after both base initializations and before its only
signal wiring (`draw`, the final step) — whereas `WaylandWindow.__init__`
wires `notify::title` before its own setters run, applies `monitor`
first (when present) although it is declared last, applies
`keyboard_mode` before `exclusivity` against declaration order, and
assigns `pass_through` a second time whenever the window is shown. -/
theorem c4_amended (a : WidgetArgs) (m child : Bool) :
    settersOf (cpbInitTrace a)
      = settersOf (widgetInitTrace a)
        ++ ["value", "min_value", "max_value", "line_width",
            "line_style", "pie"] ∧
    (∀ p ∈ ["value", "min_value", "max_value", "line_width",
        "line_style", "pie"],
      (cpbInitTrace a).count (InitStep.setProp p) = 1) ∧
    (cpbInitTrace a).getLast? = some (InitStep.wire "draw") ∧
    (∀ sig, InitStep.wire sig ∈ cpbInitTrace a → sig = "draw") ∧
    settersOf (wwInitTrace m a child)
      = settersOf (windowInitTrace
            { a with visible := false, allVisible := false } child)
        ++ (if m then ["monitor"] else [])
        ++ ["layer", "anchor", "margin", "keyboard_mode",
            "exclusivity", "pass_through"]
        ++ (if a.allVisible || a.visible then ["pass_through"] else []) ∧
    (∃ l1 l2,
      wwInitTrace m a child = l1 ++ InitStep.wire "notify::title" :: l2 ∧
      InitStep.setProp "layer" ∉ l1 ∧ InitStep.setProp "layer" ∈ l2) := by
  refine ⟨?_, ?_, ?_, ?_, ?_, ?_⟩
  · simp [cpbInitTrace, settersOf_append, settersOf]
  · intro p hp
    have hw : InitStep.setProp p ∉ widgetInitTrace a := by
      intro hmem
      have := setProp_mem_widgetInitTrace a p hmem
      fin_cases hp <;> simp_all
    fin_cases hp <;>
      simp only [cpbInitTrace, List.count_append,
        List.count_eq_zero.mpr hw] <;>
      decide
  · simp only [cpbInitTrace]
    rw [List.getLast?_append]
    rfl
  · intro sig hmem
    simp only [cpbInitTrace, List.mem_append] at hmem
    rcases hmem with ((h | h) | h) | h
    · simp_all
    · exact absurd h (wire_not_mem_widgetInitTrace a sig)
    · simp_all
    · simp_all
  · cases m <;> rcases ha : a.allVisible <;> rcases hv : a.visible <;>
      simp [wwInitTrace, settersOf_append, settersOf, ha, hv]
  · refine ⟨windowInitTrace { a with visible := false, allVisible := false }
        child
      ++ [InitStep.callFn "GtkLayerShell.init_for_window",
          InitStep.callFn "GtkLayerShell.set_namespace"], ?_, ?_, ?_, ?_⟩
    · exact (if m then [InitStep.setProp "monitor"] else [])
        ++ [InitStep.setProp "layer", InitStep.setProp "anchor",
            InitStep.setProp "margin", InitStep.setProp "keyboard_mode",
            InitStep.setProp "exclusivity", InitStep.setProp "pass_through"]
        ++ (if a.allVisible then
              [InitStep.callFn "show_all", InitStep.setProp "pass_through"]
            else if a.visible then
              [InitStep.callFn "show", InitStep.setProp "pass_through"]
            else [])
    · simp [wwInitTrace]
    · intro hmem
      rcases List.mem_append.mp hmem with h | h
      · exact layer_not_mem_windowInitTrace _ child h
      · simp_all
    · simp

/-- C4 (amended) witness at concrete inputs. -/
theorem c4_amended_witness :
    settersOf (cpbInitTrace defaultWidgetArgs)
      = settersOf (widgetInitTrace defaultWidgetArgs)
        ++ ["value", "min_value", "max_value", "line_width",
            "line_style", "pie"] ∧
    (∀ p ∈ ["value", "min_value", "max_value", "line_width",
        "line_style", "pie"],
      (cpbInitTrace defaultWidgetArgs).count (InitStep.setProp p) = 1) ∧
    (cpbInitTrace defaultWidgetArgs).getLast?
      = some (InitStep.wire "draw") ∧
    (∀ sig, InitStep.wire sig ∈ cpbInitTrace defaultWidgetArgs →
      sig = "draw") ∧
    settersOf (wwInitTrace true defaultWidgetArgs false)
      = settersOf (windowInitTrace
            { defaultWidgetArgs with visible := false, allVisible := false }
            false)
        ++ (if true then ["monitor"] else [])
        ++ ["layer", "anchor", "margin", "keyboard_mode",
            "exclusivity", "pass_through"]
        ++ (if defaultWidgetArgs.allVisible || defaultWidgetArgs.visible
            then ["pass_through"] else []) ∧
    (∃ l1 l2,
      wwInitTrace true defaultWidgetArgs false
          = l1 ++ InitStep.wire "notify::title" :: l2 ∧
      InitStep.setProp "layer" ∉ l1 ∧ InitStep.setProp "layer" ∈ l2) :=
  c4_amended defaultWidgetArgs true false

/-- C5: the claim as frozen is false on the code: `Widget.__init__`
invokes the `v_expand` property setter even when the argument was not
supplied and holds its default value `False`, overwriting rather than
leaving the underlying widget untouched. -/
theorem c5_counterexample :
    InitStep.setProp "v_expand" ∈ widgetInitTrace defaultWidgetArgs ∧
    defaultWidgetArgs.vExpand = false := by
  decide

/-- C5 (amended): in `Widget.__init__` every optional argument except
the expand flags is guarded — `name`, the tooltips and `size` by
`is not None`, the alignments, style classes and style by truthiness —
and `EventBox.__init__` applies `add_events` only when `events` is
present; but the `v_expand` and `h_expand` setters are invoked
unconditionally, even at their default `False`. -/
theorem c5_amended (a : WidgetArgs) (child : Bool) (ev : Option String) :
    (InitStep.callFn "set_name" ∈ widgetInitTrace a ↔ a.name.isSome) ∧
    (InitStep.callFn "set_tooltip_text" ∈ widgetInitTrace a
      ↔ a.tooltipText.isSome) ∧
    (InitStep.callFn "set_tooltip_markup" ∈ widgetInitTrace a
      ↔ a.tooltipMarkup.isSome) ∧
    (InitStep.setProp "v_align" ∈ widgetInitTrace a ↔ pyTruthy a.vAlign) ∧
    (InitStep.setProp "h_align" ∈ widgetInitTrace a ↔ pyTruthy a.hAlign) ∧
    (InitStep.callFn "set_size_request" ∈ widgetInitTrace a
      ↔ a.size.isSome) ∧
    (InitStep.callFn "add_style_class" ∈ widgetInitTrace a
      ↔ pyTruthy a.styleClasses) ∧
    (InitStep.callFn "set_style" ∈ widgetInitTrace a ↔ pyTruthy a.style) ∧
    InitStep.setProp "v_expand" ∈ widgetInitTrace a ∧
    InitStep.setProp "h_expand" ∈ widgetInitTrace a ∧
    (InitStep.callFn "add_events" ∈ eventBoxInitTrace a child ev
      ↔ ev.isSome) := by
  rcases ha : a.allVisible <;> rcases hv : a.visible <;>
    simp [widgetInitTrace, eventBoxInitTrace, containerInitTrace,
      mem_ite_cons_nil, ha, hv]

/-- C5 (amended) witness at concrete inputs. -/
theorem c5_amended_witness :
    (InitStep.callFn "set_name" ∈ widgetInitTrace defaultWidgetArgs
      ↔ defaultWidgetArgs.name.isSome) ∧
    (InitStep.callFn "set_tooltip_text" ∈ widgetInitTrace defaultWidgetArgs
      ↔ defaultWidgetArgs.tooltipText.isSome) ∧
    (InitStep.callFn "set_tooltip_markup"
        ∈ widgetInitTrace defaultWidgetArgs
      ↔ defaultWidgetArgs.tooltipMarkup.isSome) ∧
    (InitStep.setProp "v_align" ∈ widgetInitTrace defaultWidgetArgs
      ↔ pyTruthy defaultWidgetArgs.vAlign) ∧
    (InitStep.setProp "h_align" ∈ widgetInitTrace defaultWidgetArgs
      ↔ pyTruthy defaultWidgetArgs.hAlign) ∧
    (InitStep.callFn "set_size_request" ∈ widgetInitTrace defaultWidgetArgs
      ↔ defaultWidgetArgs.size.isSome) ∧
    (InitStep.callFn "add_style_class" ∈ widgetInitTrace defaultWidgetArgs
      ↔ pyTruthy defaultWidgetArgs.styleClasses) ∧
    (InitStep.callFn "set_style" ∈ widgetInitTrace defaultWidgetArgs
      ↔ pyTruthy defaultWidgetArgs.style) ∧
    InitStep.setProp "v_expand" ∈ widgetInitTrace defaultWidgetArgs ∧
    InitStep.setProp "h_expand" ∈ widgetInitTrace defaultWidgetArgs ∧
    (InitStep.callFn "add_events"
        ∈ eventBoxInitTrace defaultWidgetArgs false none
      ↔ (none : Option String).isSome) :=
  c5_amended defaultWidgetArgs false none

end Fabric
